import Mathlib

/-!
Shallow embedding of the Sentinel360 risk-assessment core
(`core/expert_rules.py`, `core/ml_inference.py`, `core/route_anomaly.py`,
`core/risk_fusion.py`) together with theorems settling the behavioural
claims about it.

Modelling conventions:
* Python floats are modelled as `ℚ`; every numeric constant occurring in the
  source is an exact decimal, so this is faithful for the comparisons the
  code performs.  `float('inf')`, which `route_anomaly.py` uses as the
  starting value of its distance minimisation, is modelled by the dedicated
  type `EDist` (`fin q` or `inf`) with the IEEE comparison behaviour the
  code relies on (`inf > c` is true, `x < inf` is true for finite `x`,
  `inf < inf` is false).
* Python dicts of features are association lists `List (String × ℚ)`;
  lookup takes the first binding, and `{**defaults, **overrides}` is
  modelled by concatenating the overrides in front of the defaults.
* Genuinely external or transcendental components are abstract function
  parameters: the two pickled sklearn models together with their scalers
  and the sigmoid (`gb_model`, `if_model : List ℚ → ℚ`), the trigonometric
  haversine distance and compass bearing (`GeoFns`), and the shapely
  corridor polygons (`Corridor := QPoint → Bool`, point-in-polygon
  containment).  Every result proved below holds for all instantiations of
  these parameters.
* Code that raises (`predict`, `set_fusion_weights`, and `assess_risk`
  through `predict`) returns `Except String _`.
* Wall-clock reads (`datetime.now()`) are explicit `ℚ` parameters, and the
  Google-directions response inside `check_for_reroutes` is an explicit
  `Option (List Route × List Corridor)` parameter (`none` models both an
  exception and, combined with the emptiness test, an empty response).
* Human-readable `reason`/`message` strings are not reproduced
  character-for-character; instead each rule result records the numeric and
  tag data that the source interpolates into the string (`reason_data`,
  `reason_tags`), which determines the string.  The `explanation` field of
  the final assessment (pure string formatting) is not modelled.
-/

namespace Sentinel

abbrev QPoint : Type := ℚ × ℚ

/-- Association-list lookup with Python-dict semantics (first binding wins). -/
def dictFind {α : Type} (d : List (String × α)) (k : String) : Option α :=
  (d.find? (fun kv => kv.1 == k)).map (fun kv => kv.2)

/-- Result dict produced by the individual rule methods of
`ExpertRulesEngine`.  Fields absent from a given Python dict take the
defaults below (`triggered := false` models `{'triggered': False}`). -/
structure RuleResult where
  triggered : Bool := false
  severity : String := ""
  rule_name : String := ""
  risk_adjustment : ℚ := 0
  action : Option String := none
  escalate_to : Option String := none
  reason_data : List ℚ := []
  reason_tags : List String := []
  deriving DecidableEq, Repr

/-- Transcribes `ExpertRulesEngine.rule_extreme_speeding`. -/
def rule_extreme_speeding (current_speed speed_limit : ℚ)
    (location_type : String) : RuleResult :=
  let excess := current_speed - speed_limit
  if current_speed > 130 then
    { triggered := true, severity := "CRITICAL", rule_name := "EXTREME_SPEEDING",
      risk_adjustment := 0.50, action := some "IMMEDIATE_ALERT",
      reason_data := [current_speed, speed_limit] }
  else if excess ≥ 50 then
    { triggered := true, severity := "CRITICAL", rule_name := "EXCESSIVE_SPEEDING",
      risk_adjustment := 0.50, action := some "IMMEDIATE_ALERT",
      reason_data := [excess] }
  else if location_type = "school_zone" ∧ current_speed > 35 then
    { triggered := true, severity := "CRITICAL", rule_name := "SCHOOL_ZONE_SPEEDING",
      risk_adjustment := 0.45, action := some "IMMEDIATE_ALERT",
      reason_data := [current_speed] }
  else {}

/-- Python `l[-10:]` for a list with at least 10 elements (and `l` itself
otherwise, as in Python). -/
def lastN (n : ℕ) (l : List ℚ) : List ℚ := l.drop (l.length - n)

/-- Python `min` over a list, with a junk value on `[]` (the source only
calls it on non-empty lists). -/
def listMinD : List ℚ → ℚ
  | [] => 0
  | x :: xs => xs.foldl min x

/-- Transcribes `ExpertRulesEngine.rule_crash_pattern`. -/
def rule_crash_pattern (acceleration_history : List ℚ)
    (current_speed : ℚ) : RuleResult :=
  if acceleration_history.length < 10 then {}
  else
    let harsh_brake := listMinD (lastN 10 acceleration_history)
    let stopped := current_speed < 5
    if harsh_brake < -7.0 ∧ stopped then
      { triggered := true, severity := "CRITICAL", rule_name := "CRASH_PATTERN",
        risk_adjustment := 0.60, action := some "IMMEDIATE_ALERT_AND_CALL_USER",
        reason_data := [harsh_brake] }
    else {}

/-- One entry of `ExpertRulesEngine.HIGH_RISK_ZONES`. -/
structure Zone where
  north : ℚ
  south : ℚ
  east : ℚ
  west : ℚ
  risk_start : ℚ
  risk_end : ℚ
  risk_level : String
  deriving DecidableEq, Repr

/-- The `HIGH_RISK_ZONES` table (iteration order of the Python dict). -/
def HIGH_RISK_ZONES : List (String × Zone) :=
  [("nima",
    { north := 5.5850, south := 5.5650, east := -0.1950, west := -0.2150,
      risk_start := 22, risk_end := 5, risk_level := "HIGH" }),
   ("chorkor",
    { north := 5.5550, south := 5.5350, east := -0.2450, west := -0.2650,
      risk_start := 22, risk_end := 6, risk_level := "MEDIUM" })]

/-- Loop body of `rule_geofence_violation`: first zone whose bounds contain
the point and whose risk window contains the hour wins. -/
def geofenceFirst : List (String × Zone) → ℚ → ℚ → ℚ → RuleResult
  | [], _, _, _ => {}
  | (zname, z) :: rest, lat, lon, time_of_day =>
    if (z.south ≤ lat ∧ lat ≤ z.north ∧ z.west ≤ lon ∧ lon ≤ z.east)
        ∧ (time_of_day ≥ z.risk_start ∨ time_of_day < z.risk_end) then
      { triggered := true, severity := "HIGH", rule_name := "GEOFENCE_VIOLATION",
        risk_adjustment := 0.35, action := some "ALERT_USER_AND_SHARE_LOCATION",
        reason_tags := [zname] }
    else geofenceFirst rest lat lon time_of_day

/-- Transcribes `ExpertRulesEngine.rule_geofence_violation`. -/
def rule_geofence_violation (current_location : QPoint)
    (time_of_day : ℚ) : RuleResult :=
  geofenceFirst HIGH_RISK_ZONES current_location.1 current_location.2 time_of_day

/-- Transcribes `ExpertRulesEngine.rule_sustained_speeding`. -/
def rule_sustained_speeding (speed_history : List ℚ)
    (speed_limit : ℚ) : RuleResult :=
  if speed_history.length < 10 then {}
  else
    let recent := lastN 10 speed_history
    let over := recent.countP (fun s => decide (s > speed_limit + 20))
    if over ≥ 10 then
      let avg_excess := ((recent.map (fun s => s - speed_limit)).sum : ℚ)
          / (recent.length : ℚ)
      { triggered := true, severity := "MEDIUM", rule_name := "SUSTAINED_SPEEDING",
        risk_adjustment := 0.25, escalate_to := some "HIGH",
        reason_data := [avg_excess] }
    else {}

/-- Transcribes `ExpertRulesEngine.rule_harsh_event_cluster`; `harsh_events`
keeps each event's `timestamp` field (the only field the source reads) and
`now` is the `datetime.now().timestamp()` read inside the method. -/
def rule_harsh_event_cluster (harsh_events : List ℚ) (now : ℚ)
    (time_window : ℚ := 60) : RuleResult :=
  let recent := harsh_events.filter (fun e => decide (now - e < time_window))
  if recent.length ≥ 3 then
    { triggered := true, severity := "MEDIUM", rule_name := "HARSH_EVENT_CLUSTER",
      risk_adjustment := 0.20, reason_data := [(recent.length : ℚ), time_window] }
  else {}

/-- Transcribes `ExpertRulesEngine.rule_suspicious_stop_pattern`; `hav` is
the `_haversine_distance` helper (abstracted trigonometric function).  The
`stop_count` parameter is accepted and ignored exactly as in the source. -/
def rule_suspicious_stop_pattern (hav : QPoint → QPoint → ℚ) (stop_count : ℕ)
    (stop_locations : List QPoint) (time_of_day : ℚ)
    (expected_route : List QPoint) : RuleResult :=
  let is_night := 22 ≤ time_of_day ∨ time_of_day < 5
  if ¬ is_night ∨ expected_route = [] then {}
  else
    let off_route := stop_locations.countP
      (fun loc => decide (listMinD (expected_route.map (fun rp => hav loc rp)) > 500))
    if off_route ≥ 3 then
      { triggered := true, severity := "MEDIUM", rule_name := "SUSPICIOUS_STOPS",
        risk_adjustment := 0.30, action := some "CHECK_IN_WITH_USER",
        escalate_to := some "HIGH", reason_data := [(off_route : ℚ)] }
    else {}

/-- The `adjustments` dict of `rule_rush_hour_context` when rush hour is
detected (the field written `max_idle_ratio` in the source is named
`max_idle_frac` here). -/
structure RushAdjustments where
  max_acceptable_stops : ℚ := 15
  max_idle_frac : ℚ := 0.60
  min_expected_speed : ℚ := 10
  ml_score_damper : ℚ := -0.15
  deriving DecidableEq, Repr

/-- Result of `rule_rush_hour_context`; `adjustments := none` models the
empty `{}` adjustments dict of the `NORMAL` branch. -/
structure RushHourResult where
  context : String
  adjustments : Option RushAdjustments
  deriving DecidableEq, Repr

/-- The `RUSH_HOUR_ZONES` list. -/
def RUSH_HOUR_ZONES : List String :=
  ["Circle", "Kaneshie", "Achimota", "Madina",
   "Tema Station", "Tetteh Quarshie", "Airport Area"]

/-- Transcribes `ExpertRulesEngine.rule_rush_hour_context`. -/
def rule_rush_hour_context (time_of_day : ℚ) (day_of_week : ℤ)
    (location : String) : RushHourResult :=
  let is_weekday := day_of_week < 5
  let is_morning := 6 ≤ time_of_day ∧ time_of_day < 9.5
  let is_evening := 16.5 ≤ time_of_day ∧ time_of_day < 20
  if is_weekday ∧ (is_morning ∨ is_evening) ∧ location ∈ RUSH_HOUR_ZONES then
    { context := "RUSH_HOUR_CONGESTION", adjustments := some {} }
  else { context := "NORMAL", adjustments := none }

/-- One entry of the `ROAD_CONTEXTS` table; the two keys present only for
`unpaved` are `Option` fields. -/
structure RoadContext where
  speed_limit : ℚ
  acceptable_lo : ℚ
  acceptable_hi : ℚ
  max_stops_per_10km : ℚ
  harsh_brake_tolerance : ℚ
  harsh_accel_tolerance : Option ℚ := none
  ml_score_damper : Option ℚ := none
  deriving DecidableEq, Repr

/-- The `arterial` entry, also the fallback for unknown road types. -/
def arterialContext : RoadContext :=
  { speed_limit := 50, acceptable_lo := 20, acceptable_hi := 65,
    max_stops_per_10km := 8, harsh_brake_tolerance := 3 }

/-- The `ROAD_CONTEXTS` table. -/
def ROAD_CONTEXTS : List (String × RoadContext) :=
  [("motorway",
    { speed_limit := 100, acceptable_lo := 60, acceptable_hi := 110,
      max_stops_per_10km := 2, harsh_brake_tolerance := 1 }),
   ("arterial", arterialContext),
   ("residential",
    { speed_limit := 30, acceptable_lo := 10, acceptable_hi := 40,
      max_stops_per_10km := 15, harsh_brake_tolerance := 5 }),
   ("unpaved",
    { speed_limit := 40, acceptable_lo := 5, acceptable_hi := 50,
      max_stops_per_10km := 10, harsh_brake_tolerance := 8,
      harsh_accel_tolerance := some 6, ml_score_damper := some (-0.20) })]

/-- Result of `rule_road_type_context`. -/
structure RoadTypeResult where
  context : String
  adjustments : RoadContext
  deriving DecidableEq, Repr

/-- Transcribes `ExpertRulesEngine.rule_road_type_context`. -/
def rule_road_type_context (road_type : String) : RoadTypeResult :=
  let ctx := (dictFind ROAD_CONTEXTS road_type).getD arterialContext
  { context := "ROAD_TYPE_" ++ road_type.toUpper, adjustments := ctx }

/-- Result of `rule_time_risk_multiplier`. -/
structure TimeRiskResult where
  context : String
  multiplier : ℚ
  ml_adjustment : ℚ
  deriving DecidableEq, Repr

/-- The `TIME_RISK_MULTIPLIERS` table (iteration order of the Python dict). -/
def TIME_RISK_MULTIPLIERS : List ((ℚ × ℚ) × ℚ) :=
  [((0, 6), 2.5), ((6, 9), 1.1), ((9, 14), 1.0), ((14, 17), 0.9),
   ((17, 20), 1.3), ((20, 22), 1.5), ((22, 24), 3.2)]

/-- Loop body of `rule_time_risk_multiplier`. -/
def timeRiskFirst : List ((ℚ × ℚ) × ℚ) → ℚ → TimeRiskResult
  | [], _ => { context := "NORMAL", multiplier := 1.0, ml_adjustment := 0.0 }
  | (se, mult) :: rest, time_of_day =>
    if se.1 ≤ time_of_day ∧ time_of_day < se.2 then
      { context := "TIME_RISK", multiplier := mult,
        ml_adjustment := (mult - 1.0) * 0.15 }
    else timeRiskFirst rest time_of_day

/-- Transcribes `ExpertRulesEngine.rule_time_risk_multiplier`. -/
def rule_time_risk_multiplier (time_of_day : ℚ) : TimeRiskResult :=
  timeRiskFirst TIME_RISK_MULTIPLIERS time_of_day

/-- Transcribes `ExpertRulesEngine.rule_speed_location_correlation`. -/
def rule_speed_location_correlation (current_speed : ℚ)
    (location_type : String) (time_of_day : ℚ) : RuleResult :=
  let adj1 : ℚ := if location_type = "residential" ∧ current_speed > 45 then 0.15 else 0
  let adj2 : ℚ :=
    if location_type = "school_zone" ∧ (7 ≤ time_of_day ∧ time_of_day < 17)
        ∧ current_speed > 35 then 0.25 else 0
  let adj3 : ℚ := if location_type = "motorway" ∧ current_speed < 50 then 0.10 else 0
  let adj := adj1 + adj2 + adj3
  if adj > 0 then
    { triggered := true, rule_name := "SPEED_LOCATION_CORRELATION",
      risk_adjustment := adj }
  else {}

/-- Transcribes `ExpertRulesEngine.rule_route_deviation_duration` (the
source's local `dev_ratio` is named `dev_frac` here). -/
def rule_route_deviation_duration (route_deviation trip_duration
    expected_duration : ℚ) : RuleResult :=
  let dev_frac : ℚ := if route_deviation > 0 then route_deviation / 1000 else 0
  let dur_excess : ℚ :=
    if expected_duration > 0 then (trip_duration - expected_duration) / expected_duration
    else 0
  if dev_frac > 0.30 ∧ dur_excess > 0.50 then
    { triggered := true, rule_name := "ROUTE_DEVIATION_DURATION",
      risk_adjustment := 0.20, action := some "CHECK_IN_WITH_USER",
      reason_data := [dev_frac, dur_excess] }
  else {}

/-- Driver history dict; field defaults mirror the `.get(_, 0)` calls. -/
structure DriverHistory where
  trips_completed : ℕ := 0
  rating : ℚ := 0
  safety_incidents_90d : ℕ := 0
  deriving DecidableEq, Repr

/-- Result of `rule_professional_driver_profile`. -/
structure ProfileResult where
  profile : String
  ml_adjustment : ℚ
  deriving DecidableEq, Repr

/-- Transcribes `ExpertRulesEngine.rule_professional_driver_profile`. -/
def rule_professional_driver_profile (driver_history : DriverHistory) : ProfileResult :=
  if driver_history.trips_completed ≥ 500 ∧ driver_history.rating ≥ 4.75
      ∧ driver_history.safety_incidents_90d = 0 then
    { profile := "PROFESSIONAL", ml_adjustment := -0.10 }
  else { profile := "STANDARD", ml_adjustment := 0.0 }

/-- One value of the `route_history` table. -/
structure RouteHistEntry where
  count : ℕ
  incidents : ℕ
  deriving DecidableEq, Repr

/-- Result of `rule_known_safe_route`. -/
structure KnownRouteResult where
  context : String
  ml_adjustment : ℚ
  deriving DecidableEq, Repr

/-- Transcribes `ExpertRulesEngine.rule_known_safe_route` (the `driver_id`
parameter is accepted and ignored exactly as in the source). -/
def rule_known_safe_route (route_signature : String) (driver_id : String)
    (route_history : List (String × RouteHistEntry)) : KnownRouteResult :=
  match dictFind route_history route_signature with
  | some h =>
    if h.count ≥ 10 ∧ h.incidents = 0 then
      { context := "KNOWN_SAFE_ROUTE", ml_adjustment := -0.05 }
    else { context := "NORMAL", ml_adjustment := 0.0 }
  | none => { context := "NORMAL", ml_adjustment := 0.0 }

/-- The telemetry dict (`trip_data`); field defaults mirror the `.get`
defaults used in `apply_all_rules` and `assess_risk`.  `harsh_events` keeps
each event's timestamp, the only field the source reads. -/
structure TripData where
  current_speed : ℚ := 0
  acceleration_history : List ℚ := []
  speed_history : List ℚ := []
  harsh_events : List ℚ := []
  stop_count : ℕ := 0
  stop_locations : List QPoint := []
  route_deviation : ℚ := 0
  trip_duration : ℚ := 0
  features : List (String × ℚ) := []
  deriving DecidableEq, Repr

/-- The context dict; field defaults mirror the `.get` defaults. -/
structure Context where
  speed_limit : ℚ := 50
  location_type : String := "urban"
  current_location : QPoint := (0, 0)
  time_of_day : ℚ := 12
  day_of_week : ℤ := 3
  location : String := ""
  road_type : String := "arterial"
  expected_route : List QPoint := []
  expected_duration : ℚ := 0
  driver_history : DriverHistory := {}
  route_signature : String := ""
  driver_id : String := ""
  route_history : List (String × RouteHistEntry) := []
  deriving DecidableEq, Repr

/-- The aggregate dict built by `ExpertRulesEngine.apply_all_rules`. -/
structure RulesAggregate where
  critical_rules : List RuleResult
  severity_rules : List RuleResult
  correlation_rules : List RuleResult
  rush_hour : RushHourResult
  road_type : RoadTypeResult
  time_risk : TimeRiskResult
  driver_profile : ProfileResult
  known_route : KnownRouteResult
  total_risk_adjustment : ℚ
  triggered_actions : List String
  deriving DecidableEq, Repr

/-- Transcribes `ExpertRulesEngine.apply_all_rules`.  `hav` abstracts the
trigonometric `_haversine_distance` helper and `now` the
`datetime.now().timestamp()` read inside `rule_harsh_event_cluster`.
Only the critical-rule loop collects actions, exactly as in the source. -/
def apply_all_rules (hav : QPoint → QPoint → ℚ) (trip_data : TripData)
    (context : Context) (now : ℚ) : RulesAggregate :=
  let critChecks := [
    rule_extreme_speeding trip_data.current_speed context.speed_limit
      context.location_type,
    rule_crash_pattern trip_data.acceleration_history trip_data.current_speed,
    rule_geofence_violation context.current_location context.time_of_day]
  let critical := critChecks.filter (fun c => c.triggered)
  let critAdj := (critical.map (fun c => c.risk_adjustment)).sum
  let critActions := critical.filterMap (fun c => c.action)
  let sevChecks := [
    rule_sustained_speeding trip_data.speed_history context.speed_limit,
    rule_harsh_event_cluster trip_data.harsh_events now,
    rule_suspicious_stop_pattern hav trip_data.stop_count trip_data.stop_locations
      context.time_of_day context.expected_route]
  let severity := sevChecks.filter (fun c => c.triggered)
  let sevAdj := (severity.map (fun c => c.risk_adjustment)).sum
  let rush := rule_rush_hour_context context.time_of_day context.day_of_week
    context.location
  let road := rule_road_type_context context.road_type
  let time_risk := rule_time_risk_multiplier context.time_of_day
  let roadDamp := (road.adjustments.ml_score_damper).getD 0
  let rushDamp : ℚ := match rush.adjustments with
    | some a => a.ml_score_damper
    | none => 0
  let corrChecks := [
    rule_speed_location_correlation trip_data.current_speed context.location_type
      context.time_of_day,
    rule_route_deviation_duration trip_data.route_deviation trip_data.trip_duration
      context.expected_duration]
  let correlation := corrChecks.filter (fun c => c.triggered)
  let corrAdj := (correlation.map (fun c => c.risk_adjustment)).sum
  let prof := rule_professional_driver_profile context.driver_history
  let known := rule_known_safe_route context.route_signature context.driver_id
    context.route_history
  { critical_rules := critical, severity_rules := severity,
    correlation_rules := correlation, rush_hour := rush, road_type := road,
    time_risk := time_risk, driver_profile := prof, known_route := known,
    total_risk_adjustment := critAdj + sevAdj + time_risk.ml_adjustment
      + roadDamp + rushDamp + corrAdj + prof.ml_adjustment + known.ml_adjustment,
    triggered_actions := critActions }

/-! ### `core/ml_inference.py` -/

/-- The `components` breakdown dict returned by `HybridMLModel.predict`. -/
structure MLComponents where
  gb_weight : ℚ
  gb_score : ℚ
  gb_contribution : ℚ
  if_weight : ℚ
  if_score : ℚ
  if_contribution : ℚ
  deriving DecidableEq, Repr

/-- The dict returned by `HybridMLModel.predict`. -/
structure MLResult where
  gb_score : ℚ
  if_score : ℚ
  hybrid_score : ℚ
  level : String
  color : String
  components : MLComponents
  deriving DecidableEq, Repr

/-- The loaded `HybridMLModel`.  `gb_model` abstracts
`predict_proba(scaler_ghana.transform(·))[0][1]` and `if_model` abstracts
`1/(1+exp(-decision_function(scaler_porto.transform(·))[0]))`: opaque
pickled sklearn pipelines applied to the ordered feature vector. -/
structure HybridMLModel where
  feature_names : List String
  gb_weight : ℚ := 0.7
  if_weight : ℚ := 0.3
  gb_model : List ℚ → ℚ
  if_model : List ℚ → ℚ

/-- The inline score-to-level classification of `HybridMLModel.predict`
(`ml_inference.py` lines 61-66). -/
def mlClassify (hybrid_score : ℚ) : String × String :=
  if hybrid_score < 0.3 then ("SAFE", "green")
  else if hybrid_score < 0.7 then ("MEDIUM", "orange")
  else ("HIGH RISK", "red")

/-- Transcribes `HybridMLModel.predict`; the `raise ValueError` on the first
required feature absent from the input map becomes `Except.error`. -/
def predict (m : HybridMLModel) (features : List (String × ℚ)) :
    Except String MLResult :=
  match m.feature_names.find? (fun f => (dictFind features f).isNone) with
  | some f => .error ("Missing feature: " ++ f)
  | none =>
    let vals := m.feature_names.map (fun f => (dictFind features f).getD 0)
    let gb_score := m.gb_model vals
    let if_score := m.if_model vals
    let hybrid_score := m.gb_weight * gb_score + m.if_weight * if_score
    let lc := mlClassify hybrid_score
    .ok { gb_score := gb_score, if_score := if_score, hybrid_score := hybrid_score,
          level := lc.1, color := lc.2,
          components :=
            { gb_weight := m.gb_weight, gb_score := gb_score,
              gb_contribution := m.gb_weight * gb_score,
              if_weight := m.if_weight, if_score := if_score,
              if_contribution := m.if_weight * if_score } }

/-- `np.isclose` with its default tolerances `rtol = 1e-5`, `atol = 1e-8`:
`|a - b| ≤ atol + rtol * |b|`. -/
def np_isclose (a b : ℚ) : Bool := decide (|a - b| ≤ 1e-8 + 1e-5 * |b|)

/-- Transcribes `HybridMLModel.set_fusion_weights`: the guard raises before
any assignment, so an error leaves the model untouched. -/
def set_fusion_weights (m : HybridMLModel) (gb_weight if_weight : ℚ) :
    Except String HybridMLModel :=
  if ! np_isclose (gb_weight + if_weight) 1.0 then
    .error "Weights must sum to 1.0"
  else
    .ok { m with gb_weight := gb_weight, if_weight := if_weight }

/-! ### `core/route_anomaly.py` -/

/-- Python float distances as the code uses them: finite values plus
`float('inf')` (the initial accumulator of both distance minimisations and
the distance reported when no route point is available). -/
inductive EDist where
  | fin : ℚ → EDist
  | inf : EDist
  deriving DecidableEq, Repr

/-- `d > q` for a float distance and a finite threshold. -/
def EDist.gtQ : EDist → ℚ → Bool
  | .inf, _ => true
  | .fin x, q => decide (x > q)

/-- `d < e` on float distances (`inf < inf` is false, as in IEEE floats). -/
def EDist.ltE : EDist → EDist → Bool
  | .fin x, .fin y => decide (x < y)
  | .fin _, .inf => true
  | .inf, _ => false

/-- One fetched route (the `bounds` key, never read afterwards, is
omitted). -/
structure Route where
  polyline : List QPoint
  distance : ℚ := 0
  duration : ℚ := 0
  summary : String := ""

/-- A corridor: the shapely buffered polygon around one route, abstracted
to its point-containment test (`corridor.contains(Point(...))`). -/
abbrev Corridor : Type := QPoint → Bool

/-- The trigonometric helpers of `RouteAnomalyDetector`, abstracted:
`hav` is `haversine_distance` and `bearing` is `calculate_bearing`. -/
structure GeoFns where
  hav : QPoint → QPoint → ℚ
  bearing : QPoint → QPoint → ℚ

/-- One entry of `deviation_events`. -/
structure DevEvent where
  timestamp : ℚ
  distance : EDist
  position : QPoint

/-- Mutable state of a `RouteAnomalyDetector`. -/
structure RouteState where
  destination : QPoint
  routes : List Route
  route_corridors : List Corridor
  gps_breadcrumbs : List (QPoint × ℚ) := []
  deviation_events : List DevEvent := []
  consecutive_deviations : ℕ := 0
  last_reroute_check : ℚ := 0

/-- Transcribes `RouteAnomalyDetector._closest_point_on_segment`. -/
def closest_point_on_segment (point seg_start seg_end : QPoint) : QPoint :=
  let dx := seg_end.1 - seg_start.1
  let dy := seg_end.2 - seg_start.2
  if dx = 0 ∧ dy = 0 then seg_start
  else
    let t := max 0 (min 1
      (((point.1 - seg_start.1) * dx + (point.2 - seg_start.2) * dy)
        / (dx * dx + dy * dy)))
    (seg_start.1 + t * dx, seg_start.2 + t * dy)

/-- The dict returned by `distance_from_route`. -/
structure DistInfo where
  distance : EDist
  closest_point : Option QPoint
  segment_index : ℕ
  progress : ℚ

/-- Transcribes `RouteAnomalyDetector.distance_from_route`: minimise the
haversine distance to the closest point of each polyline segment, starting
from `float('inf')`.  An empty or single-point polyline yields `inf`. -/
def distance_from_route (g : GeoFns) (current_pos : QPoint)
    (route_polyline : List QPoint) : DistInfo :=
  let segs := route_polyline.zip route_polyline.tail
  let r := segs.enum.foldl
    (fun (acc : EDist × Option QPoint × ℕ) iseg =>
      let cp := closest_point_on_segment current_pos iseg.2.1 iseg.2.2
      let d := g.hav current_pos cp
      if EDist.ltE (.fin d) acc.1 then (.fin d, some cp, iseg.1) else acc)
    ((.inf : EDist), none, 0)
  { distance := r.1, closest_point := r.2.1, segment_index := r.2.2,
    progress := (r.2.2 : ℚ) / ((max (route_polyline.length - 1) 1 : ℕ) : ℚ) }

/-- Transcribes `RouteAnomalyDetector.check_for_reroutes`.  `now` is the
`datetime.now().timestamp()` read, and `resp` is the Google-directions
response for the current position: `none` models an exception, and
`some (routes, corridors)` a reply, with the corridors produced by
`_create_route_corridors` for those routes.  An empty reply (`if data:`
false) only refreshes `last_reroute_check`, like an exception. -/
def check_for_reroutes (st : RouteState) (now : ℚ)
    (resp : Option (List Route × List Corridor)) : RouteState :=
  if now - st.last_reroute_check < 30 then st
  else
    match resp with
    | some rs =>
      if rs.1.isEmpty then { st with last_reroute_check := now }
      else { st with routes := rs.1, route_corridors := rs.2,
                     last_reroute_check := now }
    | none => { st with last_reroute_check := now }

/-- Index-tracking loop of `is_within_any_corridor`. -/
def withinIdx : List Corridor → QPoint → ℕ → Option ℕ
  | [], _, _ => none
  | c :: rest, pos, i => if c pos then some i else withinIdx rest pos (i + 1)

/-- Transcribes `RouteAnomalyDetector.is_within_any_corridor`; the Python
pair `(False, None)` / `(True, idx)` is `none` / `some idx`. -/
def is_within_any_corridor (corridors : List Corridor) (current_pos : QPoint) :
    Option ℕ :=
  withinIdx corridors current_pos 0

/-- The dict returned by `RouteAnomalyDetector.update` (and by
`_evaluate_deviation`); keys absent from a given branch keep the defaults. -/
structure UpdateResult where
  status : String
  route : Option String := none
  deviation_distance : EDist := .fin 0
  consecutive_seconds : Option ℕ := none
  risk_adjustment : ℚ := 0
  triggered : Bool := false
  severity : Option String := none
  action : Option String := none

/-- Transcribes `RouteAnomalyDetector._evaluate_deviation`: the ordered
severity ladder, first match wins. -/
def evaluate_deviation (distance : EDist) (consecutive : ℕ)
    (wrong_direction : Bool) : UpdateResult :=
  if wrong_direction ∧ distance.gtQ 300 then
    { status := "WRONG_DIRECTION", deviation_distance := distance,
      consecutive_seconds := some consecutive, risk_adjustment := 0.60,
      triggered := true, severity := some "CRITICAL",
      action := some "ALERT_USER_IMMEDIATELY" }
  else if distance.gtQ 500 ∧ consecutive ≥ 5 then
    { status := "CRITICAL_DEVIATION", deviation_distance := distance,
      consecutive_seconds := some consecutive, risk_adjustment := 0.40,
      triggered := true, severity := some "CRITICAL",
      action := some "ALERT_USER_IMMEDIATELY" }
  else if distance.gtQ 200 ∧ consecutive ≥ 10 then
    { status := "HIGH_DEVIATION", deviation_distance := distance,
      consecutive_seconds := some consecutive, risk_adjustment := 0.25,
      triggered := true, severity := some "HIGH",
      action := some "CHECK_IN_WITH_USER" }
  else if distance.gtQ 150 ∧ consecutive ≥ 20 then
    { status := "PROLONGED_DEVIATION", deviation_distance := distance,
      consecutive_seconds := some consecutive, risk_adjustment := 0.15,
      triggered := true, severity := some "MEDIUM", action := some "MONITOR" }
  else
    { status := "MINOR_DEVIATION", deviation_distance := distance,
      consecutive_seconds := some consecutive, risk_adjustment := 0.05,
      triggered := false, severity := some "LOW", action := none }

/-- Transcribes `RouteAnomalyDetector.update`.  `timestamp` is the caller's
fix timestamp, `now` the wall-clock read inside `check_for_reroutes`, and
`resp` the directions response (see `check_for_reroutes`).  Returns the
updated state together with the result dict. -/
def update (g : GeoFns) (st : RouteState) (current_gps : QPoint)
    (timestamp : ℚ) (now : ℚ) (resp : Option (List Route × List Corridor)) :
    RouteState × UpdateResult :=
  let st1 := { st with
    gps_breadcrumbs := st.gps_breadcrumbs ++ [(current_gps, timestamp)] }
  let st2 := check_for_reroutes st1 now resp
  match is_within_any_corridor st2.route_corridors current_gps with
  | some ridx =>
    ({ st2 with consecutive_deviations := 0 },
     { status := if ridx = 0 then "ON_PRIMARY_ROUTE" else "ON_ALTERNATIVE_ROUTE",
       route := (st2.routes.get? ridx).map Route.summary,
       deviation_distance := .fin 0, risk_adjustment := 0.0, triggered := false })
  | none =>
    let min_dist := st2.routes.foldl
      (fun acc r =>
        let info := distance_from_route g current_gps r.polyline
        if EDist.ltE info.distance acc then info.distance else acc)
      (.inf : EDist)
    let st3 := { st2 with
      consecutive_deviations := st2.consecutive_deviations + 1,
      deviation_events := st2.deviation_events
        ++ [{ timestamp := timestamp, distance := min_dist,
              position := current_gps }] }
    let wrong_dir : Bool :=
      if st3.gps_breadcrumbs.length ≥ 2 then
        let prev := ((st3.gps_breadcrumbs.get?
          (st3.gps_breadcrumbs.length - 2)).map Prod.fst).getD (0, 0)
        let bearing_dest := g.bearing current_gps st3.destination
        let heading := g.bearing prev current_gps
        let diff := |bearing_dest - heading|
        let diff2 := if diff > 180 then 360 - diff else diff
        decide (diff2 > 90)
      else false
    (st3, evaluate_deviation min_dist st3.consecutive_deviations wrong_dir)

/-! ### `core/risk_fusion.py` -/

/-- The `defaults` dict of `RiskFusionEngine._extract_features`. -/
def defaultFeatures : List (String × ℚ) :=
  [("avg_speed", 0.0), ("max_speed", 0.0), ("speed_std", 0.0),
   ("avg_acceleration", 0.0), ("max_acceleration", 0.0),
   ("harsh_accel_count", 0), ("harsh_brake_count", 0),
   ("stop_count", 0), ("avg_stop_duration", 0.0),
   ("total_distance", 0.0), ("distance_per_stop", 0.0),
   ("time_of_day", 12), ("day_of_week", 3), ("trip_duration", 0.0),
   ("speed_changes", 0), ("route_straightness", 0.85),
   ("idle_time_ratio", 0.0), ("avg_trip_speed", 0.0)]

/-- Transcribes `RiskFusionEngine._extract_features`:
`{**defaults, **trip_data.get('features', {})}` — supplied features
override the defaults (first binding wins in `dictFind`). -/
def extract_features (trip_data : TripData) : List (String × ℚ) :=
  trip_data.features ++ defaultFeatures

/-- The inline score-to-level classification of `RiskFusionEngine.assess_risk`
(`risk_fusion.py` lines 93-98). -/
def fusionClassify (final : ℚ) : String × String :=
  if final < 0.3 then ("SAFE", "green")
  else if final < 0.7 then ("MEDIUM", "orange")
  else ("HIGH RISK", "red")

/-- The placeholder route result used when no detector is registered for
the trip: `{'status': 'NO_ROUTE_MONITORING', 'risk_adjustment': 0.0}` (the
absent `deviation_distance` key reads as the `.get` default `0`). -/
def noRouteResult : UpdateResult :=
  { status := "NO_ROUTE_MONITORING", risk_adjustment := 0.0 }

/-- The assessment dict returned by `RiskFusionEngine.assess_risk`, with the
`components` sub-dicts flattened into fields.  The `explanation` string
(pure formatting of fields already present here) is not modelled. -/
structure Assessment where
  trip_id : String
  timestamp : ℚ
  final_score : ℚ
  final_level : String
  final_color : String
  ml_score : ℚ
  ml_level : String
  gb_score : ℚ
  if_score : ℚ
  rules_adjustment : ℚ
  critical_rules : List RuleResult
  severity_rules : List RuleResult
  rush_hour : RushHourResult
  road_type : RoadTypeResult
  time_risk : TimeRiskResult
  route_adjustment : ℚ
  route_status : String
  route_deviation_distance : EDist
  actions : List String

/-- Transcribes `RiskFusionEngine.assess_risk` for one trip.  `det` is the
detector registered for `trip_id` (`route_detectors.get(trip_id)`), `ts`
the `datetime.now().timestamp()` read, and `resp` the directions response
should the embedded `check_for_reroutes` fire.  A `Missing feature` error
raised by `predict` propagates as `Except.error`.  Python's
`list(set(actions))` is modelled by `List.eraseDups` (the source's set
iteration order is unspecified; only membership is determined). -/
def assess_risk (g : GeoFns) (ml : HybridMLModel) (det : Option RouteState)
    (trip_id : String) (trip_data : TripData) (context : Context) (ts : ℚ)
    (resp : Option (List Route × List Corridor)) :
    Except String (Assessment × Option RouteState) :=
  match predict ml (extract_features trip_data) with
  | .error e => .error e
  | .ok ml_result =>
    let rules_result := apply_all_rules g.hav trip_data context ts
    let rules_adj := rules_result.total_risk_adjustment
    let dr : UpdateResult × Option RouteState :=
      match det with
      | none => (noRouteResult, none)
      | some d =>
        let ur := update g d context.current_location ts ts resp
        (ur.2, some ur.1)
    let route_result := dr.1
    let route_adj := route_result.risk_adjustment
    let final := max 0.0 (min 1.0 (ml_result.hybrid_score + route_adj + rules_adj))
    let lc := fusionClassify final
    let actions0 := rules_result.triggered_actions
      ++ (match route_result.action with | some a => [a] | none => [])
    let actions1 :=
      if lc.1 = "HIGH RISK" ∧ actions0 = [] then actions0 ++ ["ALERT_USER"]
      else if lc.1 = "MEDIUM" ∧ actions0 = [] then actions0 ++ ["MONITOR"]
      else actions0
    .ok ({ trip_id := trip_id, timestamp := ts, final_score := final,
           final_level := lc.1, final_color := lc.2,
           ml_score := ml_result.hybrid_score, ml_level := ml_result.level,
           gb_score := ml_result.gb_score, if_score := ml_result.if_score,
           rules_adjustment := rules_adj,
           critical_rules := rules_result.critical_rules,
           severity_rules := rules_result.severity_rules,
           rush_hour := rules_result.rush_hour,
           road_type := rules_result.road_type,
           time_risk := rules_result.time_risk,
           route_adjustment := route_adj, route_status := route_result.status,
           route_deviation_distance := route_result.deviation_distance,
           actions := actions1.eraseDups }, dr.2)

/-! ### Spec-side definitions

These definitions follow the wording of the specification (not the code);
the refinement theorems below compare them with the transcribed code. -/

/-- Score classification as the specification words it: `< 0.3` SAFE,
`< 0.7` MEDIUM, otherwise the high-risk label. -/
def specClassifyLevel (s : ℚ) : String :=
  if s < 0.3 then "SAFE" else if s < 0.7 then "MEDIUM" else "HIGH RISK"

/-- The deviation classification as the specification words it: an ordered
ladder, most severe first, first match wins. -/
structure LadderSpec where
  status : String
  severity : String
  risk_adjustment : ℚ
  triggered : Bool
  deriving DecidableEq, Repr

/-- Severity ladder from the specification sentence: wrong-direction AND
distance > 300 → critical wrong-direction; else distance > 500 AND count ≥ 5
→ critical deviation; else distance > 200 AND count ≥ 10 → high; else
distance > 150 AND count ≥ 20 → medium; otherwise low/untriggered. -/
def specDeviationLadder (distance : EDist) (consecutive : ℕ)
    (wrong_direction : Bool) : LadderSpec :=
  if wrong_direction ∧ distance.gtQ 300 then
    { status := "WRONG_DIRECTION", severity := "CRITICAL",
      risk_adjustment := 0.60, triggered := true }
  else if distance.gtQ 500 ∧ consecutive ≥ 5 then
    { status := "CRITICAL_DEVIATION", severity := "CRITICAL",
      risk_adjustment := 0.40, triggered := true }
  else if distance.gtQ 200 ∧ consecutive ≥ 10 then
    { status := "HIGH_DEVIATION", severity := "HIGH",
      risk_adjustment := 0.25, triggered := true }
  else if distance.gtQ 150 ∧ consecutive ≥ 20 then
    { status := "PROLONGED_DEVIATION", severity := "MEDIUM",
      risk_adjustment := 0.15, triggered := true }
  else
    { status := "MINOR_DEVIATION", severity := "LOW",
      risk_adjustment := 0.05, triggered := false }

/-- A point lies inside a zone's bounding box (spec wording of the geofence
bounds test). -/
abbrev zoneInBounds (z : Zone) (p : QPoint) : Prop :=
  z.south ≤ p.1 ∧ p.1 ≤ z.north ∧ z.west ≤ p.2 ∧ p.2 ≤ z.east

/-- An hour lies inside a zone's (possibly midnight-wrapping) risk window:
`hour ≥ start OR hour < end` (spec wording). -/
abbrev zoneInHours (z : Zone) (t : ℚ) : Prop :=
  t ≥ z.risk_start ∨ t < z.risk_end

/-! ### Helper lemmas -/

/-- `geofenceFirst` triggers exactly when some zone of the list contains the
point in bounds and the hour in its risk window. -/
theorem geofenceFirst_triggered_iff (zs : List (String × Zone)) (p : QPoint)
    (t : ℚ) :
    (geofenceFirst zs p.1 p.2 t).triggered = true
      ↔ ∃ z ∈ zs, zoneInBounds z.2 p ∧ zoneInHours z.2 t := by
  induction zs with
  | nil => simp [geofenceFirst]
  | cons hd tl ih =>
    obtain ⟨zname, z⟩ := hd
    unfold geofenceFirst
    split_ifs with h
    · constructor
      · intro _
        exact ⟨(zname, z), by simp, h.1, h.2⟩
      · intro _
        rfl
    · rw [ih]
      constructor
      · rintro ⟨w, hw, hwb, hwh⟩
        exact ⟨w, List.mem_cons_of_mem _ hw, hwb, hwh⟩
      · rintro ⟨w, hw, hwb, hwh⟩
        rcases List.mem_cons.mp hw with hww | hw2
        · subst hww
          exact absurd ⟨hwb, hwh⟩ h
        · exact ⟨w, hw2, hwb, hwh⟩

/-! ### Claim theorems -/

/-- C2: the score-to-level classification used by
`RiskFusionEngine.assess_risk` and the one used by `HybridMLModel.predict`
are the same function, and both map `s < 0.3` to SAFE, `0.3 ≤ s < 0.7` to
MEDIUM and `s ≥ 0.7` to the label `HIGH RISK`, with identical thresholds
and identical labels (and identical colors). -/
theorem classification_thresholds_agree :
    ∀ s : ℚ, fusionClassify s = mlClassify s
      ∧ (fusionClassify s).1 = specClassifyLevel s
      ∧ (mlClassify s).1 = specClassifyLevel s := by
  intro s
  refine ⟨rfl, ?_, ?_⟩ <;>
    · simp only [fusionClassify, mlClassify, specClassifyLevel]
      split_ifs <;> rfl

/-- C3: `RouteAnomalyDetector._evaluate_deviation` implements the spec's
ordered severity ladder (most severe first, first match wins) on status,
severity, risk adjustment and triggered flag, and the four boundary cases
of the claim evaluate as stated: (600 m, 5, not wrong) → CRITICAL_DEVIATION,
(600, 4, false) → MINOR_DEVIATION, (250, 10, false) → HIGH_DEVIATION,
(199, 10, false) → MINOR_DEVIATION. -/
theorem evaluate_deviation_matches_spec_ladder :
    (∀ (d : EDist) (c : ℕ) (w : Bool),
        (evaluate_deviation d c w).status = (specDeviationLadder d c w).status
      ∧ (evaluate_deviation d c w).severity
          = some (specDeviationLadder d c w).severity
      ∧ (evaluate_deviation d c w).risk_adjustment
          = (specDeviationLadder d c w).risk_adjustment
      ∧ (evaluate_deviation d c w).triggered
          = (specDeviationLadder d c w).triggered)
    ∧ (evaluate_deviation (.fin 600) 5 false).status = "CRITICAL_DEVIATION"
    ∧ (evaluate_deviation (.fin 600) 4 false).status = "MINOR_DEVIATION"
    ∧ (evaluate_deviation (.fin 250) 10 false).status = "HIGH_DEVIATION"
    ∧ (evaluate_deviation (.fin 199) 10 false).status = "MINOR_DEVIATION" := by
  refine ⟨fun d c w => ?_, ?_, ?_, ?_, ?_⟩
  · unfold evaluate_deviation specDeviationLadder
    split_ifs <;> exact ⟨rfl, rfl, rfl, rfl⟩
  all_goals norm_num [evaluate_deviation, EDist.gtQ]

/-- C6: `ExpertRulesEngine.rule_crash_pattern` triggers exactly when the
acceleration history has at least 10 samples, the minimum of the last 10
samples is strictly below −7.0, and the current speed is strictly below 5;
in particular a window whose minimum is exactly −7.0 never triggers, and a
minimum of −7.1 triggers exactly when speed < 5. -/
theorem rule_crash_pattern_characterization :
    (∀ (acceleration_history : List ℚ) (current_speed : ℚ),
        (rule_crash_pattern acceleration_history current_speed).triggered = true
          ↔ 10 ≤ acceleration_history.length
            ∧ listMinD (lastN 10 acceleration_history) < -7.0
            ∧ current_speed < 5)
    ∧ (rule_crash_pattern [0, 0, 0, 0, 0, 0, 0, 0, 0, -7.0] 0).triggered = false
    ∧ (rule_crash_pattern [0, 0, 0, 0, 0, 0, 0, 0, 0, -7.1] 4).triggered = true
    ∧ (rule_crash_pattern [0, 0, 0, 0, 0, 0, 0, 0, 0, -7.1] 5).triggered = false := by
  refine ⟨fun hist speed => ?_, ?_, ?_, ?_⟩
  · unfold rule_crash_pattern
    dsimp only
    split_ifs with h1 h2
    · exact ⟨(fun hF => nomatch hF), (fun hcon => absurd hcon.1 (by omega))⟩
    · exact ⟨fun _ => ⟨by omega, h2.1, h2.2⟩, fun _ => rfl⟩
    · exact ⟨(fun hF => nomatch hF), (fun hcon => absurd ⟨hcon.2.1, hcon.2.2⟩ h2)⟩
  all_goals norm_num [rule_crash_pattern, lastN, listMinD, min_def]

/-- C7: `ExpertRulesEngine.rule_geofence_violation` triggers exactly when
the position lies inside some named zone's bounding box and the hour lies
in that zone's (midnight-wrapping) risk window `hour ≥ start OR hour < end`;
concretely, the zone with window (22, 5) ("nima"), at an in-bounds position,
triggers at hour 23 and at hour 0 and does not trigger at hour 12. -/
theorem rule_geofence_violation_characterization :
    (∀ (loc : QPoint) (t : ℚ),
        (rule_geofence_violation loc t).triggered = true
          ↔ ∃ z ∈ HIGH_RISK_ZONES, zoneInBounds z.2 loc ∧ zoneInHours z.2 t)
    ∧ ((dictFind HIGH_RISK_ZONES "nima").map
        (fun z => (z.risk_start, z.risk_end))) = some (22, 5)
    ∧ ((dictFind HIGH_RISK_ZONES "nima").map
        (fun z => decide (zoneInBounds z (5.575, -0.205)))) = some true
    ∧ (rule_geofence_violation (5.575, -0.205) 23).triggered = true
    ∧ (rule_geofence_violation (5.575, -0.205) 0).triggered = true
    ∧ (rule_geofence_violation (5.575, -0.205) 12).triggered = false := by
  refine ⟨fun loc t => geofenceFirst_triggered_iff HIGH_RISK_ZONES loc t, ?_, ?_, ?_, ?_, ?_⟩
  all_goals
    norm_num [rule_geofence_violation, geofenceFirst, HIGH_RISK_ZONES, dictFind,
      zoneInBounds, zoneInHours]

/-- Python-style success test for the fallible operations. -/
def isOkE {α : Type} : Except String α → Bool
  | .ok _ => true
  | .error _ => false

/-- The fusion weights stored after a `set_fusion_weights` call (`none` when
the call raised, leaving the model as it was). -/
def weightsOf : Except String HybridMLModel → Option (ℚ × ℚ)
  | .ok m => some (m.gb_weight, m.if_weight)
  | .error _ => none

/-- A loaded model with no required features, used as a concrete receiver
for `set_fusion_weights`. -/
def mlNoFeatures : HybridMLModel :=
  { feature_names := [], gb_model := fun _ => 0, if_model := fun _ => 0 }

/-- C9 counterexample: `set_fusion_weights` accepts the pair
`(0.7, 0.3 + 10⁻⁶)`, whose sum is `1.000001 ≠ 1`, because the guard is
`np.isclose(gb + if, 1.0)` (tolerance `1e-8 + 1e-5`), and it stores these
weights as supplied; so it does not reject every pair whose sum is not 1. -/
theorem set_fusion_weights_accepts_near_one_sum :
    (0.7 : ℚ) + (0.3 + 0.000001) ≠ 1
    ∧ isOkE (set_fusion_weights mlNoFeatures 0.7 (0.3 + 0.000001)) = true
    ∧ weightsOf (set_fusion_weights mlNoFeatures 0.7 (0.3 + 0.000001))
        = some (0.7, 0.3 + 0.000001) := by
  refine ⟨by norm_num, ?_, ?_⟩ <;>
    norm_num [set_fusion_weights, np_isclose, isOkE, weightsOf, abs_le]

/-- C9 (amended): `set_fusion_weights` succeeds exactly when
`|gb + if − 1| ≤ 1e-8 + 1e-5` (the `np.isclose` tolerance with default
`rtol`/`atol`), it stores exactly the supplied weights on success (it never
renormalizes them), and it raises — storing nothing — otherwise. -/
theorem set_fusion_weights_characterization :
    ∀ (m : HybridMLModel) (gb_weight if_weight : ℚ),
      (isOkE (set_fusion_weights m gb_weight if_weight) = true
        ↔ |gb_weight + if_weight - 1| ≤ 1e-8 + 1e-5)
      ∧ (weightsOf (set_fusion_weights m gb_weight if_weight)
          = if |gb_weight + if_weight - 1| ≤ 1e-8 + 1e-5
            then some (gb_weight, if_weight) else none) := by
  intro m gw iw
  have htol : np_isclose (gw + iw) 1.0 = true ↔ |gw + iw - 1| ≤ 1e-8 + 1e-5 := by
    simp only [np_isclose, decide_eq_true_eq]
    norm_num
  cases hnp : np_isclose (gw + iw) 1.0 with
  | false =>
    have hno : ¬ |gw + iw - 1| ≤ 1e-8 + 1e-5 := by
      intro hc
      rw [← htol] at hc
      exact absurd hc (by simp [hnp])
    simp [set_fusion_weights, hnp, isOkE, weightsOf, hno]
  | true =>
    have hyes : |gw + iw - 1| ≤ 1e-8 + 1e-5 := htol.mp hnp
    simp [set_fusion_weights, hnp, isOkE, weightsOf, hyes]

/-- `predict` raises exactly when some required feature is absent from the
input map. -/
theorem predict_error_iff (m : HybridMLModel) (features : List (String × ℚ)) :
    isOkE (predict m features) = false
      ↔ ∃ f ∈ m.feature_names, dictFind features f = none := by
  unfold predict
  cases hf : m.feature_names.find? (fun f => (dictFind features f).isNone) with
  | none =>
    simp only [isOkE]
    constructor
    · intro hF
      exact nomatch hF
    · rintro ⟨f, hmem, hnone⟩
      have := List.find?_eq_none.mp hf f hmem
      simp [hnone] at this
  | some f =>
    constructor
    · intro _
      have hp := List.find?_some hf
      simp only [Option.isNone_iff_eq_none] at hp
      exact ⟨f, List.mem_of_find?_eq_some hf, hp⟩
    · intro _
      rfl

/-- `assess_risk` raises exactly when `predict` raises on the merged
(defaults-backed) feature map. -/
theorem assess_risk_error_iff (g : GeoFns) (m : HybridMLModel)
    (det : Option RouteState) (trip_id : String) (trip_data : TripData)
    (context : Context) (ts : ℚ)
    (resp : Option (List Route × List Corridor)) :
    isOkE (assess_risk g m det trip_id trip_data context ts resp) = false
      ↔ ∃ f ∈ m.feature_names, dictFind (extract_features trip_data) f = none := by
  rw [← predict_error_iff m (extract_features trip_data)]
  unfold assess_risk
  cases hp : predict m (extract_features trip_data) <;> simp [isOkE, hp]

/-- A concrete model requiring the feature `avg_speed`, with opaque constant
scorers. -/
def mlAvgSpeed : HybridMLModel :=
  { feature_names := ["avg_speed"], gb_model := fun _ => 0, if_model := fun _ => 0 }

/-- Concrete geo functions (the haversine and bearing values are irrelevant
to the facts proved with them). -/
def gDemo : GeoFns := { hav := fun _ _ => 0, bearing := fun _ _ => 0 }

/-- C8 counterexample: with a model requiring `avg_speed` and a telemetry
dict whose feature map is empty, `predict` on that map fails, yet
`assess_risk` on the same telemetry succeeds — `_extract_features`
silently substitutes the default `avg_speed = 0` instead of failing. -/
theorem assess_risk_defaults_missing_features :
    "avg_speed" ∈ mlAvgSpeed.feature_names
    ∧ dictFind ({} : TripData).features "avg_speed" = none
    ∧ isOkE (predict mlAvgSpeed ({} : TripData).features) = false
    ∧ isOkE (assess_risk gDemo mlAvgSpeed none "trip" {} {} 0 none) = true
    ∧ dictFind (extract_features ({} : TripData)) "avg_speed" = some 0 := by
  refine ⟨by simp [mlAvgSpeed], rfl, rfl, ?_, by norm_num [extract_features, dictFind, defaultFeatures]⟩
  rw [show isOkE (assess_risk gDemo mlAvgSpeed none "trip" {} {} 0 none) = true
      ↔ ¬ (isOkE (assess_risk gDemo mlAvgSpeed none "trip" {} {} 0 none) = false) from
    by simp]
  rw [assess_risk_error_iff]
  rintro ⟨f, hmem, hnone⟩
  have : f = "avg_speed" := by simpa [mlAvgSpeed] using hmem
  subst this
  rw [show dictFind (extract_features ({} : TripData)) "avg_speed" = some 0 from
    by norm_num [extract_features, dictFind, defaultFeatures]] at hnone
  exact nomatch hnone

/-- C8 (amended): `predict` fails with a missing-feature error exactly when
some required feature is absent from its input map, but `assess_risk` first
merges the fixed defaults map under the supplied features
(`{**defaults, **features}`), so a required feature covered by the defaults
is silently defaulted; `assess_risk` fails only when some required feature
is in neither the supplied map nor the defaults. -/
theorem missing_feature_handling_characterization :
    (∀ (m : HybridMLModel) (features : List (String × ℚ)),
        isOkE (predict m features) = false
          ↔ ∃ f ∈ m.feature_names, dictFind features f = none)
    ∧ (∀ (g : GeoFns) (m : HybridMLModel) (det : Option RouteState)
          (trip_id : String) (trip_data : TripData) (context : Context)
          (ts : ℚ) (resp : Option (List Route × List Corridor)),
        isOkE (assess_risk g m det trip_id trip_data context ts resp) = false
          ↔ ∃ f ∈ m.feature_names,
              dictFind trip_data.features f = none
              ∧ dictFind defaultFeatures f = none)
    ∧ ∀ (trip_data : TripData) (f : String),
        dictFind (extract_features trip_data) f
          = (dictFind trip_data.features f).or (dictFind defaultFeatures f) := by
  have hmerge : ∀ (trip_data : TripData) (f : String),
      dictFind (extract_features trip_data) f
        = (dictFind trip_data.features f).or (dictFind defaultFeatures f) := by
    intro t f
    unfold extract_features dictFind
    rw [List.find?_append]
    cases t.features.find? (fun kv => kv.1 == f) <;> simp
  refine ⟨predict_error_iff, ?_, hmerge⟩
  intro g m det tid t c ts resp
  rw [assess_risk_error_iff]
  constructor
  · rintro ⟨f, hmem, hnone⟩
    rw [hmerge] at hnone
    rcases h1 : dictFind t.features f with _ | v
    · rcases h2 : dictFind defaultFeatures f with _ | w
      · exact ⟨f, hmem, h1, h2⟩
      · rw [h1, h2] at hnone
        exact nomatch hnone
    · rw [h1] at hnone
      exact nomatch hnone
  · rintro ⟨f, hmem, h1, h2⟩
    refine ⟨f, hmem, ?_⟩
    rw [hmerge, h1, h2]
    rfl

/-- Concrete haversine stand-in for rule evaluations that never reach it
(the counterexample below has no stops and no expected route). -/
def hav0 : QPoint → QPoint → ℚ := fun _ _ => 0

/-- Telemetry with three harsh events, all stamped at time 100. -/
def tripHarsh : TripData := { harsh_events := [100, 100, 100] }

/-- C5 counterexample: identical telemetry and context evaluated at two
different wall-clock times give different aggregates — at time 130 the
three harsh events are within the 60 s window and
`rule_harsh_event_cluster` fires (total adjustment 0.20), at time 200 they
have aged out (total adjustment 0).  `apply_all_rules` is therefore not a
pure function of telemetry and context alone. -/
theorem apply_all_rules_not_time_invariant :
    apply_all_rules hav0 tripHarsh {} 130 ≠ apply_all_rules hav0 tripHarsh {} 200 := by
  intro h
  have h2 := congrArg (fun r => r.severity_rules.length) h
  norm_num [apply_all_rules, rule_extreme_speeding, rule_crash_pattern,
    rule_geofence_violation, geofenceFirst, HIGH_RISK_ZONES,
    rule_sustained_speeding, rule_harsh_event_cluster,
    rule_suspicious_stop_pattern, tripHarsh, List.filter] at h2

/-- C5 (amended): `apply_all_rules` is a deterministic function of the
telemetry, the context and the wall-clock time read inside
`rule_harsh_event_cluster`; two calls on identical telemetry and context
agree whenever the 60 s harsh-event window holds the same number of events
at the two times (in particular whenever `harsh_events` is empty) — the
clock is the only extra input. -/
theorem apply_all_rules_deterministic_given_time :
    ∀ (hav : QPoint → QPoint → ℚ) (trip_data : TripData) (context : Context)
      (n1 n2 : ℚ),
      (trip_data.harsh_events.filter (fun e => decide (n1 - e < 60))).length
        = (trip_data.harsh_events.filter (fun e => decide (n2 - e < 60))).length →
      apply_all_rules hav trip_data context n1
        = apply_all_rules hav trip_data context n2 := by
  intro hav t c n1 n2 h
  have hr : rule_harsh_event_cluster t.harsh_events n1
      = rule_harsh_event_cluster t.harsh_events n2 := by
    unfold rule_harsh_event_cluster
    dsimp only
    rw [h]
  unfold apply_all_rules
  rw [hr]

/-- Witness for the amended C5: with no harsh events the window count is 0
at both times, so assessments at times 0 and 1 agree exactly. -/
theorem apply_all_rules_deterministic_given_time_witness :
    apply_all_rules hav0 {} {} 0 = apply_all_rules hav0 {} {} 1 :=
  apply_all_rules_deterministic_given_time hav0 {} {} 0 1 rfl

/-! ### Counter behaviour of `RouteAnomalyDetector.update` -/

/-- Whether an `update` call finds its position inside some corridor known
at the moment of the containment test (i.e. after the breadcrumb append and
the possible corridor refresh by `check_for_reroutes`). -/
def withinAfterUpdate (st : RouteState) (pos : QPoint) (ts now : ℚ)
    (resp : Option (List Route × List Corridor)) : Bool :=
  (is_within_any_corridor
    (check_for_reroutes
      { st with gps_breadcrumbs := st.gps_breadcrumbs ++ [(pos, ts)] }
      now resp).route_corridors pos).isSome

/-- `withinIdx` finds an index exactly when some corridor of the list
contains the point. -/
theorem withinIdx_isSome_iff (cs : List Corridor) (p : QPoint) :
    ∀ i : ℕ, (withinIdx cs p i).isSome = true ↔ ∃ c ∈ cs, c p = true := by
  induction cs with
  | nil => intro i; simp [withinIdx]
  | cons c rest ih =>
    intro i
    unfold withinIdx
    split_ifs with h
    · constructor
      · intro _
        exact ⟨c, by simp, h⟩
      · intro _
        rfl
    · rw [ih (i + 1)]
      constructor
      · rintro ⟨w, hw, hwp⟩
        exact ⟨w, List.mem_cons_of_mem _ hw, hwp⟩
      · rintro ⟨w, hw, hwp⟩
        rcases List.mem_cons.mp hw with hww | hw2
        · subst hww
          exact absurd hwp h
        · exact ⟨w, hw2, hwp⟩

/-- `check_for_reroutes` only touches the route set, the corridors and the
rate-limiter timestamp; every other state field is unchanged. -/
theorem check_for_reroutes_fields (st : RouteState) (now : ℚ)
    (resp : Option (List Route × List Corridor)) :
    (check_for_reroutes st now resp).consecutive_deviations
        = st.consecutive_deviations
    ∧ (check_for_reroutes st now resp).gps_breadcrumbs = st.gps_breadcrumbs
    ∧ (check_for_reroutes st now resp).deviation_events = st.deviation_events
    ∧ (check_for_reroutes st now resp).destination = st.destination := by
  unfold check_for_reroutes
  split_ifs with h
  · exact ⟨rfl, rfl, rfl, rfl⟩
  · cases resp with
    | none => exact ⟨rfl, rfl, rfl, rfl⟩
    | some rs =>
      dsimp only
      split_ifs <;> exact ⟨rfl, rfl, rfl, rfl⟩

/-- One `update` call sets the consecutive-deviation counter to 0 when the
position is inside some known corridor and to the old value plus 1
otherwise. -/
theorem update_counter_eq (g : GeoFns) (st : RouteState) (pos : QPoint)
    (ts now : ℚ) (resp : Option (List Route × List Corridor)) :
    (update g st pos ts now resp).1.consecutive_deviations
      = if withinAfterUpdate st pos ts now resp then 0
        else st.consecutive_deviations + 1 := by
  unfold update withinAfterUpdate
  dsimp only
  cases hw : is_within_any_corridor
      (check_for_reroutes
        { st with gps_breadcrumbs := st.gps_breadcrumbs ++ [(pos, ts)] }
        now resp).route_corridors pos with
  | none =>
    simp only [hw, Option.isSome_none, Bool.false_eq_true, if_false]
    rw [(check_for_reroutes_fields _ now resp).1]
  | some ridx =>
    simp [hw]

/-- One input of an `update` call: GPS fix, fix timestamp, wall-clock time
and directions response. -/
structure UpdInput where
  pos : QPoint
  ts : ℚ
  now : ℚ
  resp : Option (List Route × List Corridor)

/-- Folding a sequence of `update` calls over a detector state. -/
def runUpdates (g : GeoFns) (st : RouteState) : List UpdInput → RouteState
  | [] => st
  | i :: rest => runUpdates g (update g st i.pos i.ts i.now i.resp).1 rest

/-- The on-route flags observed along a sequence of `update` calls. -/
def withinTrace (g : GeoFns) (st : RouteState) : List UpdInput → List Bool
  | [] => []
  | i :: rest =>
    withinAfterUpdate st i.pos i.ts i.now i.resp
      :: withinTrace g (update g st i.pos i.ts i.now i.resp).1 rest

/-- Reference counter: reset to 0 on every on-route flag, incremented by 1
on every off-route flag. -/
def counterSpec : ℕ → List Bool → ℕ
  | init, [] => init
  | init, w :: rest => counterSpec (if w then 0 else init + 1) rest

/-- Across a whole sequence of updates the counter evolves exactly by the
reset/increment discipline of `counterSpec` over the on-route flags. -/
theorem runUpdates_counter (g : GeoFns) :
    ∀ (inputs : List UpdInput) (st : RouteState),
      (runUpdates g st inputs).consecutive_deviations
        = counterSpec st.consecutive_deviations (withinTrace g st inputs) := by
  intro inputs
  induction inputs with
  | nil => intro st; rfl
  | cons i rest ih =>
    intro st
    unfold runUpdates withinTrace counterSpec
    rw [ih, update_counter_eq]

/-- C4: across every sequence of `update` calls, the consecutive-deviation
counter is set to 0 exactly by the updates whose position lies inside some
corridor known at the moment of the test, every other update increments it
by exactly 1, and no other operation of the detector touches it
(`check_for_reroutes` leaves it unchanged; the whole sequence evolves by
the pure reset/increment discipline `counterSpec`). -/
theorem consecutive_deviations_reset_iff_within_corridor :
    (∀ (g : GeoFns) (st : RouteState) (pos : QPoint) (ts now : ℚ)
        (resp : Option (List Route × List Corridor)),
      ((update g st pos ts now resp).1.consecutive_deviations
          = if withinAfterUpdate st pos ts now resp then 0
            else st.consecutive_deviations + 1)
      ∧ (withinAfterUpdate st pos ts now resp = true
          ↔ ∃ c ∈ (check_for_reroutes
              { st with gps_breadcrumbs := st.gps_breadcrumbs ++ [(pos, ts)] }
              now resp).route_corridors, c pos = true)
      ∧ (check_for_reroutes st now resp).consecutive_deviations
          = st.consecutive_deviations)
    ∧ ∀ (g : GeoFns) (inputs : List UpdInput) (st : RouteState),
        (runUpdates g st inputs).consecutive_deviations
          = counterSpec st.consecutive_deviations (withinTrace g st inputs) :=
  ⟨fun g st pos ts now resp =>
    ⟨update_counter_eq g st pos ts now resp,
     withinIdx_isSome_iff _ pos 0,
     (check_for_reroutes_fields st now resp).1⟩,
   fun g inputs st => runUpdates_counter g inputs st⟩

/-! ### Behaviour of `update` when the route list is empty -/

/-- Every branch of `_evaluate_deviation` reports the distance it was
given. -/
theorem evaluate_deviation_distance (d : EDist) (c : ℕ) (w : Bool) :
    (evaluate_deviation d c w).deviation_distance = d := by
  unfold evaluate_deviation
  split_ifs <;> rfl

/-- When the detector knows no routes and the directions response supplies
none either, `check_for_reroutes` leaves both lists empty. -/
theorem check_for_reroutes_empty (st : RouteState) (now : ℚ)
    (resp : Option (List Route × List Corridor))
    (h1 : st.routes = []) (h2 : st.route_corridors = [])
    (h3 : ∀ p, resp = some p → p.1 = []) :
    (check_for_reroutes st now resp).routes = []
    ∧ (check_for_reroutes st now resp).route_corridors = [] := by
  unfold check_for_reroutes
  split_ifs with h
  · exact ⟨h1, h2⟩
  · cases resp with
    | none => exact ⟨h1, h2⟩
    | some p =>
      have hp := h3 p rfl
      dsimp only
      rw [if_pos (by simp [hp])]
      exact ⟨h1, h2⟩

/-- With no routes and no refreshing response, an `update` call reports
`evaluate_deviation` of an infinite distance and the incremented counter,
and the wrong-direction flag is false on the very first fix. -/
theorem update_empty_snd (g : GeoFns) (st : RouteState) (pos : QPoint)
    (ts now : ℚ) (resp : Option (List Route × List Corridor))
    (h1 : st.routes = []) (h2 : st.route_corridors = [])
    (h3 : ∀ p, resp = some p → p.1 = []) :
    ∃ w : Bool,
      (update g st pos ts now resp).2
        = evaluate_deviation EDist.inf (st.consecutive_deviations + 1) w
      ∧ (st.gps_breadcrumbs = [] → w = false) := by
  have he := check_for_reroutes_empty
    { st with gps_breadcrumbs := st.gps_breadcrumbs ++ [(pos, ts)] }
    now resp h1 h2 h3
  have hfields := check_for_reroutes_fields
    { st with gps_breadcrumbs := st.gps_breadcrumbs ++ [(pos, ts)] } now resp
  have hwnone : is_within_any_corridor
      (check_for_reroutes
        { st with gps_breadcrumbs := st.gps_breadcrumbs ++ [(pos, ts)] }
        now resp).route_corridors pos = none := by
    rw [he.2]
    rfl
  unfold update
  dsimp only
  simp only [hwnone]
  rw [he.1, hfields.1, hfields.2.1]
  refine ⟨_, rfl, ?_⟩
  intro hb
  simp [hb]

/-- C10: for a detector whose route list is empty (the directions provider
returned no routes) and stays empty, every `update` returns (total
function), classifies the fix as off-route with deviation distance
`+infinity` and increments the consecutive counter; the very first such
update (fresh detector) reports MINOR_DEVIATION with risk adjustment 0.05,
and as soon as the counter reaches 5 the result is CRITICAL_DEVIATION or
WRONG_DIRECTION with risk adjustment at least 0.40. -/
theorem empty_route_update_behaviour :
    ∀ (g : GeoFns) (st : RouteState) (pos : QPoint) (ts now : ℚ)
      (resp : Option (List Route × List Corridor)),
      st.routes = [] → st.route_corridors = [] →
      (∀ p, resp = some p → p.1 = []) →
      (update g st pos ts now resp).2.deviation_distance = EDist.inf
      ∧ (update g st pos ts now resp).1.consecutive_deviations
          = st.consecutive_deviations + 1
      ∧ (st.gps_breadcrumbs = [] ∧ st.consecutive_deviations = 0 →
          (update g st pos ts now resp).2.status = "MINOR_DEVIATION"
          ∧ (update g st pos ts now resp).2.risk_adjustment = 0.05)
      ∧ (4 ≤ st.consecutive_deviations →
          ((update g st pos ts now resp).2.status = "CRITICAL_DEVIATION"
            ∨ (update g st pos ts now resp).2.status = "WRONG_DIRECTION")
          ∧ 0.40 ≤ (update g st pos ts now resp).2.risk_adjustment) := by
  intro g st pos ts now resp h1 h2 h3
  obtain ⟨w, hw, hwfirst⟩ := update_empty_snd g st pos ts now resp h1 h2 h3
  have hwnone : is_within_any_corridor
      (check_for_reroutes
        { st with gps_breadcrumbs := st.gps_breadcrumbs ++ [(pos, ts)] }
        now resp).route_corridors pos = none := by
    rw [(check_for_reroutes_empty
      { st with gps_breadcrumbs := st.gps_breadcrumbs ++ [(pos, ts)] }
      now resp h1 h2 h3).2]
    rfl
  refine ⟨?_, ?_, ?_, ?_⟩
  · rw [hw, evaluate_deviation_distance]
  · rw [update_counter_eq]
    simp [withinAfterUpdate, hwnone]
  · rintro ⟨hb, hc⟩
    rw [hw, hwfirst hb, hc]
    constructor <;> norm_num [evaluate_deviation, EDist.gtQ]
  · intro hc
    rw [hw]
    cases w with
    | true =>
      refine ⟨Or.inr ?_, ?_⟩ <;> norm_num [evaluate_deviation, EDist.gtQ]
    | false =>
      have h5 : 5 ≤ st.consecutive_deviations + 1 := by omega
      refine ⟨Or.inl ?_, ?_⟩ <;>
        simp [evaluate_deviation, EDist.gtQ, h5]

/-- A freshly constructed detector whose route fetch returned nothing. -/
def stNoRoutes : RouteState :=
  { destination := (0, 0), routes := [], route_corridors := [] }

/-- The same detector after four consecutive off-route updates. -/
def stNoRoutes4 : RouteState :=
  { destination := (0, 0), routes := [], route_corridors := [],
    gps_breadcrumbs := [((0, 0), 0), ((0, 0), 0), ((0, 0), 0), ((0, 0), 0)],
    consecutive_deviations := 4 }

/-- Witness for C10 at concrete inputs: the first route-less update yields
MINOR_DEVIATION with adjustment 0.05, and the fifth consecutive one yields
CRITICAL_DEVIATION (or WRONG_DIRECTION). -/
theorem empty_route_update_behaviour_witness :
    ((update gDemo stNoRoutes (0, 0) 1 1 none).2.status = "MINOR_DEVIATION"
      ∧ (update gDemo stNoRoutes (0, 0) 1 1 none).2.risk_adjustment = 0.05)
    ∧ ((update gDemo stNoRoutes4 (0, 0) 1 1 none).2.status = "CRITICAL_DEVIATION"
        ∨ (update gDemo stNoRoutes4 (0, 0) 1 1 none).2.status = "WRONG_DIRECTION") := by
  have h1 := empty_route_update_behaviour gDemo stNoRoutes (0, 0) 1 1 none rfl rfl
    (fun p hp => nomatch hp)
  have h2 := empty_route_update_behaviour gDemo stNoRoutes4 (0, 0) 1 1 none rfl rfl
    (fun p hp => nomatch hp)
  exact ⟨h1.2.2.1 ⟨rfl, rfl⟩, (h2.2.2.2 (Nat.le_refl 4)).1⟩

/-! ### Clamping of the fused score -/

/-- `clamp(x, 0, 1)` as the specification words it. -/
def clamp01 (x : ℚ) : ℚ := max 0 (min 1 x)

/-- C1: every assessment that `assess_risk` returns has
`final_score = clamp(ml_score + route_adjustment + rules_adjustment, 0, 1)`,
hence `final_score ∈ [0, 1]`, no matter how far outside `[0, 1]` the
unclamped sum of the three recorded contributions lies. -/
theorem assess_risk_final_score_clamped :
    ∀ (g : GeoFns) (ml : HybridMLModel) (det : Option RouteState)
      (trip_id : String) (trip_data : TripData) (context : Context) (ts : ℚ)
      (resp : Option (List Route × List Corridor))
      (a : Assessment) (det2 : Option RouteState),
      assess_risk g ml det trip_id trip_data context ts resp = .ok (a, det2) →
      a.final_score
          = clamp01 (a.ml_score + a.route_adjustment + a.rules_adjustment)
      ∧ 0 ≤ a.final_score ∧ a.final_score ≤ 1 := by
  intro g ml det tid t c ts resp a det2 h
  unfold assess_risk at h
  cases hp : predict ml (extract_features t) with
  | error e =>
    rw [hp] at h
    exact nomatch h
  | ok mlr =>
    rw [hp] at h
    dsimp only at h
    rw [Except.ok.injEq, Prod.mk.injEq] at h
    obtain ⟨ha, -⟩ := h
    subst ha
    refine ⟨?_, ?_, ?_⟩
    · norm_num [clamp01]
    · exact le_max_of_le_left (by norm_num)
    · exact le_trans (max_le (by norm_num) (min_le_left _ _)) (by norm_num)

/-- Dummy assessment used below to project the `ok` payload out of an
`Except` value. -/
def junkAssessment : Assessment :=
  { trip_id := "", timestamp := 0, final_score := 0, final_level := "",
    final_color := "", ml_score := 0, ml_level := "", gb_score := 0,
    if_score := 0, rules_adjustment := 0, critical_rules := [],
    severity_rules := [], rush_hour := { context := "", adjustments := none },
    road_type := { context := "", adjustments := arterialContext },
    time_risk := { context := "", multiplier := 1, ml_adjustment := 0 },
    route_adjustment := 0, route_status := "",
    route_deviation_distance := .fin 0, actions := [] }

/-- The assessment inside a successful `assess_risk` result. -/
def okAssessment : Except String (Assessment × Option RouteState) → Assessment
  | .ok p => p.1
  | .error _ => junkAssessment

/-- The detector state inside a successful `assess_risk` result. -/
def okDetState : Except String (Assessment × Option RouteState) → Option RouteState
  | .ok p => p.2
  | .error _ => none

/-- A model whose opaque scorers both report 5, so the unclamped fused sum
is far above 1. -/
def mlConst5 : HybridMLModel :=
  { feature_names := ["avg_speed"], gb_model := fun _ => 5, if_model := fun _ => 5 }

/-- A concrete assessment call whose unclamped contribution sum is 5. -/
def assessDemo : Except String (Assessment × Option RouteState) :=
  assess_risk gDemo mlConst5 none "trip-1" {} {} 0 none

/-- Witness for C1 at a concrete input whose unclamped sum is 5: the
returned `final_score` is clamped to 1 and lies in `[0, 1]`. -/
theorem assess_risk_final_score_clamped_witness :
    (okAssessment assessDemo).ml_score = 5
    ∧ 0 ≤ (okAssessment assessDemo).final_score
    ∧ (okAssessment assessDemo).final_score ≤ 1 := by
  have h := assess_risk_final_score_clamped gDemo mlConst5 none "trip-1" {} {} 0 none
    (okAssessment assessDemo) (okDetState assessDemo) rfl
  refine ⟨?_, h.2.1, h.2.2⟩
  norm_num [okAssessment, assessDemo, assess_risk, predict, mlConst5, mlClassify,
    extract_features, defaultFeatures, dictFind, gDemo]

end Sentinel
